import Mathlib

/-
  Verification of the client-side data/state layer of the "Talk to My Docs"
  frontend (React SPA). The definitions below are a shallow embedding, in
  Lean, of the TypeScript source files:

  - chat request layer: `postMessage`, `getLlmCatalog`
    (src/frontend_web/src/api/chat/requests.ts)
  - chat query hooks: `usePostMessage` (onMutate / onError / onSuccess),
    `useLlmCatalog` (src/frontend_web/src/api/chat/hooks.ts)
  - external-files layer: `useConnectedSources`,
    `uploadGoogleFile` / `uploadBoxFile`
    (src/frontend_web/src/api/external-files)
  - knowledge-bases layer: `uploadFiles`
    (src/frontend_web/src/api/knowledge-bases/requests.ts)
  - application state reducer (src/frontend_web/src/state/reducer.ts)
  - OAuth callback view (src/frontend_web/src/pages/OAuthCallback.tsx)

  The network (axios apiClient) is modelled by explicit oracles: a fetch
  oracle mapping a file uuid to the response of `GET /v1/files/{uuid}`, and
  a verify oracle for the OAuth verification call. The react-query cache is
  modelled as a function from query keys to optional cached values, and
  `queryClient.setQueryData` as a pointwise functional update.
-/

namespace TTMD

/-- JavaScript truthiness of an optional string: `null` / `undefined` and
the empty string are falsy, every other string is truthy. -/
def tsTruthyStr : Option String → Bool
  | none => false
  | some s => !(s == "")

/-- `o || undefined` in TypeScript, for an optional string operand. -/
def tsOrUndef (o : Option String) : Option String :=
  if tsTruthyStr o then o else none

/-- JS template-literal interpolation of a possibly-undefined string
(`undefined` renders as the literal text "undefined"). -/
def tsInterp : Option String → String
  | none => "undefined"
  | some s => s

/-! ## Chat data model (src/frontend_web/src/api/chat/types.ts) -/

inductive Role where
  | user
  | assistant
deriving DecidableEq, Repr

/-- `IChatMessage` from the chat types file. -/
structure IChatMessage where
  role : Role
  content : String
  chat_id : Option String := none
  components : Option String := none
  created_at : Option String := none
  error : Option String := none
  in_progress : Option Bool := none
  model : Option String := none
  uuid : Option String := none
deriving DecidableEq, Repr

/-- A single file entry of a knowledge base
(`KnowledgeBaseSchema.files` element, src/frontend_web/src/state/types.ts). -/
structure KnowledgeBaseFileSchema where
  uuid : String
  filename : String
  source : String
  added : String
  owner_uuid : String
deriving DecidableEq, Repr

/-- `KnowledgeBaseSchema` from src/frontend_web/src/state/types.ts. -/
structure KnowledgeBaseSchema where
  uuid : String
  title : String
  description : String
  token_count : Nat
  path : String
  created_at : String
  updated_at : String
  owner_uuid : String
  files : List KnowledgeBaseFileSchema
deriving DecidableEq, Repr

/-- `LLM_MODEL` from src/frontend_web/src/state/types.ts. -/
structure LLM_MODEL where
  name : String
  model : String
  llmId : String
  isActive : Bool
  isDeprecated : Bool
deriving DecidableEq, Repr

/-- `AGENT_MODEL` from src/frontend_web/src/api/chat/constants.ts. -/
def AGENT_MODEL : String := "ttmdocs-agents"

/-- `AGENT_MODEL_LLM` from src/frontend_web/src/api/chat/constants.ts:
the synthetic catalog entry representing the multi-agent backend. -/
def AGENT_MODEL_LLM : LLM_MODEL :=
  { name := "🧠 Intelligent Agent Crew"
    model := AGENT_MODEL
    llmId := AGENT_MODEL
    isActive := true
    isDeprecated := false }

/-! ## postMessage (src/frontend_web/src/api/chat/requests.ts)

`postMessage` builds a JSON payload and posts it to one of two endpoints.
The payload's optional keys are governed by the spread expressions
`...(knowledgeBaseId ? { knowledge_base_id } : knowledgeBase && { knowledge_base })`
and `...(fileIds && fileIds.length > 0 && { file_ids: fileIds })`:
a key is present exactly when the guarding condition is truthy. -/

/-- `IPostMessageParams` from src/frontend_web/src/api/chat/types.ts
(the `signal` field, an AbortSignal, carries no data and is omitted). -/
structure IPostMessageParams where
  message : String
  model : String
  chatId : Option String := none
  knowledgeBase : Option KnowledgeBaseSchema := none
  knowledgeBaseId : Option String := none
  fileIds : Option (List String) := none
deriving DecidableEq, Repr

/-- The JSON payload built inside `postMessage`; an optional field is `none`
exactly when the corresponding key is absent from the object literal. -/
structure PostPayload where
  message : String
  model : String
  chat_id : Option String
  knowledge_base_id : Option String := none
  knowledge_base : Option KnowledgeBaseSchema := none
  file_ids : Option (List String) := none
deriving DecidableEq, Repr

def BASE_URL : String := "/v1/chat"
def llmAPIUrl : String := BASE_URL ++ "/completions"
def llmCatalogUrl : String := BASE_URL ++ "/llm/catalog"
def agentChatUrl : String := BASE_URL ++ "/agent/completions"

/-- The payload constructed by `postMessage`
(src/frontend_web/src/api/chat/requests.ts, lines 40-49). -/
def postMessagePayload (p : IPostMessageParams) : PostPayload :=
  { message := p.message
    model := p.model
    chat_id := p.chatId
    knowledge_base_id :=
      if tsTruthyStr p.knowledgeBaseId then p.knowledgeBaseId else none
    knowledge_base :=
      if tsTruthyStr p.knowledgeBaseId then none else p.knowledgeBase
    file_ids :=
      match p.fileIds with
      | some l => if 0 < l.length then some l else none
      | none => none }

/-- The endpoint chosen by `postMessage`:
`model === AGENT_MODEL ? agentChatUrl : llmAPIUrl`. -/
def postMessageUrl (p : IPostMessageParams) : String :=
  if p.model = AGENT_MODEL then agentChatUrl else llmAPIUrl

/-! ## The react-query cache of chat message lists

The cache is a partial map from query keys to cached message lists;
`queryClient.setQueryData(key, v)` is a pointwise update and
`queryClient.getQueryData(key) || []` is lookup with default `[]`. -/

/-- A hierarchical react-query cache key: a list of segments, where a
segment may be an undefined discriminator (`none`). -/
abbrev QueryKey := List (Option String)

abbrev QueryCache := QueryKey → Option (List IChatMessage)

/-- `queryClient.setQueryData` restricted to message-list entries. -/
def setQueryData (c : QueryCache) (k : QueryKey) (v : List IChatMessage) :
    QueryCache :=
  fun k2 => if k2 = k then some v else c k2

namespace chatKeys

/-- Modelled from the spec: `chatKeys.messages` from
`src/frontend_web/src/api/chat/keys.ts`, which is not present under the
source tree (only its callers in the chat hooks are). Per the spec, each
readable resource is addressed by a hierarchical key: a namespace segment
(here "chats") followed by a discriminator (the chat id); message caches
"are keyed by chat id". -/
def messages (chatId : Option String) : QueryKey :=
  [some "chats", chatId, some "messages"]

end chatKeys

/-- `IPostMessageContext` from the chat types file: the snapshot returned
by `onMutate` and consumed by `onError`. -/
structure IPostMessageContext where
  previousMessages : List IChatMessage
  messagesKey : QueryKey
deriving DecidableEq, Repr

structure MutateState where
  cache : QueryCache
  context : IPostMessageContext

/-- `usePostMessage`'s `onMutate` handler
(src/frontend_web/src/api/chat/hooks.ts): it snapshots the cached list for
`chatKeys.messages(chatId)` (defaulting to `[]`), appends the locally
constructed optimistic user message, and returns the snapshot as context. -/
def onMutate (selectedModel : String) (chatId : Option String)
    (cache : QueryCache) (message : String) : MutateState :=
  let messagesKey := chatKeys.messages chatId
  let previousMessages := (cache messagesKey).getD []
  let newUserMessage : IChatMessage :=
    { role := Role.user, content := message, model := some selectedModel }
  { cache := setQueryData cache messagesKey (previousMessages ++ [newUserMessage])
    context := { previousMessages := previousMessages, messagesKey := messagesKey } }

/-- `usePostMessage`'s `onError` handler: restores the snapshot under the
key captured at mutation start. (The JS guard
`context?.previousMessages && context?.messagesKey` is always truthy here:
the context is always produced by `onMutate`, and in JS both an array —
even an empty one — and a key array are truthy values.) -/
def onError (cache : QueryCache) (ctx : IPostMessageContext) : QueryCache :=
  setQueryData cache ctx.messagesKey ctx.previousMessages

structure SuccessState where
  cache : QueryCache
  navTarget : String

/-- `usePostMessage`'s `onSuccess` handler: appends the returned assistant
message under `chatKeys.messages(data.chat_id)` (the old cached value
defaulting to `[]`) and navigates to `` `/chat/${data.chat_id}` ``. -/
def onSuccess (cache : QueryCache) (data : IChatMessage) : SuccessState :=
  { cache := setQueryData cache (chatKeys.messages data.chat_id)
      (((cache (chatKeys.messages data.chat_id)).getD []) ++ [data])
    navTarget := "/chat/" ++ tsInterp data.chat_id }

/-! ## LLM catalog (requests.ts `getLlmCatalog`, hooks.ts `useLlmCatalog`) -/

/-- `getLlmCatalog` (src/frontend_web/src/api/chat/requests.ts): the raw
server list is filtered to `isActive === true && isDeprecated === false`. -/
def getLlmCatalog (models : List LLM_MODEL) : List LLM_MODEL :=
  models.filter (fun m => m.isActive == true && m.isDeprecated == false)

/-- The `select` projection of `useLlmCatalog`
(src/frontend_web/src/api/chat/hooks.ts): `[AGENT_MODEL_LLM, ...data]`. -/
def selectLlmCatalog (data : List LLM_MODEL) : List LLM_MODEL :=
  AGENT_MODEL_LLM :: data

/-- The react-query cache slot for the catalog after a sequence of fetches:
each (re)fetch replaces the cached query data with the newly fetched,
filtered list (it does not accumulate onto the previous value). -/
def catalogCacheAfter (responses : List (List LLM_MODEL)) :
    Option (List LLM_MODEL) :=
  responses.foldl (fun _ resp => some (getLlmCatalog resp)) none

/-- What `useLlmCatalog` hands to the view: the cached data, if any, run
through the `select` projection. -/
def displayedCatalog (cache : Option (List LLM_MODEL)) :
    Option (List LLM_MODEL) :=
  cache.map selectLlmCatalog

/-! ## Connected sources (external-files/hooks.ts `useConnectedSources`) -/

/-- `IIdentity` as consumed by `useConnectedSources`: only the optional
`provider_type` field is read (via `identity.provider_type?.toLowerCase()`). -/
structure IIdentity where
  provider_type : Option String := none
deriving DecidableEq, Repr

inductive SourceType where
  | google
  | box
deriving DecidableEq, Repr

/-- `ConnectedSource` from src/frontend_web/src/api/external-files/types.ts. -/
structure ConnectedSource where
  id : String
  name : String
  type : SourceType
  isConnected : Bool
deriving DecidableEq, Repr

/-- Whether `needle` occurs at the start of `hay` (character lists). -/
def leadsWith : List Char → List Char → Bool
  | [], _ => true
  | _ :: _, [] => false
  | a :: as, b :: bs => a == b && leadsWith as bs

/-- JS `hay.includes(needle)`: substring occurrence test (the empty needle
occurs in every string, matching JS semantics). -/
def hasSub (needle : List Char) : List Char → Bool
  | [] => leadsWith needle []
  | c :: rest => leadsWith needle (c :: rest) || hasSub needle rest

/-- `o?.toLowerCase().includes(needle)` for an optional string `o`
(`undefined` short-circuits to a falsy result). Lowercasing is applied
character by character, which is exactly what `String.toLower` does. -/
def lowerIncludes (o : Option String) (needle : String) : Bool :=
  match o with
  | none => false
  | some s => hasSub needle.toList (s.toList.map Char.toLower)

/-- `useConnectedSources` (src/frontend_web/src/api/external-files/hooks.ts):
from the current user's identity list (absent when the user or its
`identities` field is undefined), derive the connected-source entries by
substring checks on the lowercased provider types; a google entry is pushed
first when matched, then a box entry. -/
def useConnectedSources (identities : Option (List IIdentity)) :
    List ConnectedSource :=
  match identities with
  | none => []
  | some ids =>
    let hasGoogle := ids.any (fun i => lowerIncludes i.provider_type "google")
    let hasBox := ids.any (fun i => lowerIncludes i.provider_type "box")
    (if hasGoogle then
      [{ id := "google", name := "Google Drive", type := SourceType.google,
         isConnected := true }]
     else []) ++
    (if hasBox then
      [{ id := "box", name := "Box", type := SourceType.box,
         isConnected := true }]
     else [])

/-! ## File upload pipeline

`uploadFiles` (knowledge-bases/requests.ts) and `uploadGoogleFile` /
`uploadBoxFile` (external-files/requests.ts) share a two-phase shape:
phase one posts to an origin-specific upload endpoint and yields a list of
`FileSchema` records; phase two loops over those records, fetching each
file by uuid (`GET /v1/files/{uuid}`, with `include_content=true` for the
local variant) and tolerating per-file failure. The HTTP layer is modelled
by a fetch oracle from uuid to the response of that per-file request. -/

/-- `FileSchema` from src/frontend_web/src/api/knowledge-bases/types.ts.
`encoded_content` (a JS object of string entries) is a list of key/value
pairs; the empty object `{}` is the empty list. -/
structure FileSchema where
  uuid : String
  filename : String
  source : String
  file_path : Option String := none
  external_id : Option String := none
  mime_type : Option String := none
  size_bytes : Option Int := none
  added : String
  knowledge_base_id : Option Int := none
  owner_uuid : String
  encoded_content : Option (List (String × String)) := none
deriving DecidableEq, Repr

/-- The response of the per-file phase-two request: either the fetched
`FileSchema` (response data) or a thrown error (its message). -/
abbrev FetchFile := String → Except String FileSchema

/-- One iteration of the phase-two loop of `uploadGoogleFile` /
`uploadBoxFile`: on success the fetched record is kept with
`encoded_content: contentResponse.data.encoded_content || {}` (a nullish
content field is replaced by the empty object); on failure the phase-one
record is kept with `encoded_content: {}` (the failure is only logged via
`console.warn`, never rethrown). -/
def googleContentStep (fetch : FetchFile) (file : FileSchema) : FileSchema :=
  match fetch file.uuid with
  | Except.ok contentData =>
    { contentData with encoded_content := some (contentData.encoded_content.getD []) }
  | Except.error _ => { file with encoded_content := some [] }

/-- One iteration of the phase-two loop of `uploadFiles` (local upload):
on success the record returned by `getFile(uuid, true)` is pushed as-is;
on failure the phase-one record is kept with `encoded_content: {}` (the
failure is only logged via `console.warn`, never rethrown). -/
def localContentStep (fetch : FetchFile) (file : FileSchema) : FileSchema :=
  match fetch file.uuid with
  | Except.ok fileWithContent => fileWithContent
  | Except.error _ => { file with encoded_content := some [] }

/-- `Array.isArray(uploadResponse.data) ? uploadResponse.data : [uploadResponse.data]`:
the phase-one response body is either a single record or a list of them. -/
def normalizeUploadData : FileSchema ⊕ List FileSchema → List FileSchema
  | Sum.inl one => [one]
  | Sum.inr many => many

/-- Observable outcome of an upload function: the returned list, the uuids
fetched in phase two (in request order), and the phase-one upload URL. -/
structure UploadOutcome where
  uploadUrl : String
  result : List FileSchema
  phaseTwoFetched : List String
deriving DecidableEq, Repr

/-- `uploadGoogleFile` (src/frontend_web/src/api/external-files/requests.ts):
posts the file id to the drive upload endpoint (knowledge-base-scoped when
a uuid is supplied), then unconditionally runs the phase-two content loop
over every uploaded record. -/
def uploadGoogleFile (fetch : FetchFile) (knowledgeBaseUuid : Option String)
    (uploadData : FileSchema ⊕ List FileSchema) : UploadOutcome :=
  let uploadUrl :=
    match knowledgeBaseUuid with
    | some kb => "/v1/files/drive/upload?knowledge_base_uuid=" ++ kb
    | none => "/v1/files/drive/upload"
  let uploadedFiles := normalizeUploadData uploadData
  { uploadUrl := uploadUrl
    result := uploadedFiles.map (googleContentStep fetch)
    phaseTwoFetched := uploadedFiles.map (fun f => f.uuid) }

/-- `uploadBoxFile` (src/frontend_web/src/api/external-files/requests.ts):
identical two-step shape to the drive variant, against the box endpoint. -/
def uploadBoxFile (fetch : FetchFile) (knowledgeBaseUuid : Option String)
    (uploadData : FileSchema ⊕ List FileSchema) : UploadOutcome :=
  let uploadUrl :=
    match knowledgeBaseUuid with
    | some kb => "/v1/files/box/upload?knowledge_base_uuid=" ++ kb
    | none => "/v1/files/box/upload"
  let uploadedFiles := normalizeUploadData uploadData
  { uploadUrl := uploadUrl
    result := uploadedFiles.map (googleContentStep fetch)
    phaseTwoFetched := uploadedFiles.map (fun f => f.uuid) }

/-- `uploadFiles` (src/frontend_web/src/api/knowledge-bases/requests.ts):
posts the multipart form to the local upload endpoint; when
`knowledgeBaseUuid` is falsy (`!knowledgeBaseUuid`) the uploaded records
are returned as-is with no content fetch; otherwise the phase-two loop
runs (`getFile(file.uuid, true)` per record). -/
def uploadFiles (fetch : FetchFile) (knowledgeBaseUuid : Option String)
    (uploadedFiles : List FileSchema) : UploadOutcome :=
  let uploadUrl :=
    if tsTruthyStr knowledgeBaseUuid then
      "/v1/files/local/upload?knowledge_base_uuid=" ++ knowledgeBaseUuid.getD ""
    else "/v1/files/local/upload"
  if tsTruthyStr knowledgeBaseUuid then
    { uploadUrl := uploadUrl
      result := uploadedFiles.map (localContentStep fetch)
      phaseTwoFetched := uploadedFiles.map (fun f => f.uuid) }
  else
    { uploadUrl := uploadUrl
      result := uploadedFiles
      phaseTwoFetched := [] }

/-! ## Application state reducer (src/frontend_web/src/state/reducer.ts)

The reducer mirrors two of the three state fields to browser-local storage
via `setStorageItem(key, JSON.stringify(payload))`. Serialization is
modelled at the JSON-value level: storage maps a key to the JSON document
stored under it. -/

inductive Json where
  | null
  | str (s : String)
  | num (n : Int)
  | bool (b : Bool)
  | arr (xs : List Json)
  | obj (fields : List (String × Json))

/-- `JSON.stringify` of an `LLM_MODEL` value, as a JSON document. -/
def jsonOfLlmModel (m : LLM_MODEL) : Json :=
  Json.obj
    [("name", Json.str m.name), ("model", Json.str m.model),
     ("llmId", Json.str m.llmId), ("isActive", Json.bool m.isActive),
     ("isDeprecated", Json.bool m.isDeprecated)]

def jsonOfKbFile (f : KnowledgeBaseFileSchema) : Json :=
  Json.obj
    [("uuid", Json.str f.uuid), ("filename", Json.str f.filename),
     ("source", Json.str f.source), ("added", Json.str f.added),
     ("owner_uuid", Json.str f.owner_uuid)]

def jsonOfKnowledgeBase (kb : KnowledgeBaseSchema) : Json :=
  Json.obj
    [("uuid", Json.str kb.uuid), ("title", Json.str kb.title),
     ("description", Json.str kb.description),
     ("token_count", Json.num kb.token_count),
     ("path", Json.str kb.path), ("created_at", Json.str kb.created_at),
     ("updated_at", Json.str kb.updated_at),
     ("owner_uuid", Json.str kb.owner_uuid),
     ("files", Json.arr (kb.files.map jsonOfKbFile))]

/-- `JSON.stringify` of the selected knowledge base, which may be `null`. -/
def jsonOfSelectedKb : Option KnowledgeBaseSchema → Json
  | none => Json.null
  | some kb => jsonOfKnowledgeBase kb

/-- The two `STORAGE_KEYS` (src/frontend_web/src/state/constants.ts). -/
def SELECTED_LLM_MODEL_KEY : String := "SELECTED_LLM_MODEL"
def SELECTED_KNOWLEDGE_BASE_KEY : String := "SELECTED_KNOWLEDGE_BASE"

abbrev Storage := String → Option Json

def setStorageItem (st : Storage) (k : String) (v : Json) : Storage :=
  fun k2 => if k2 = k then some v else st k2

/-- `AppStateData` from src/frontend_web/src/state/types.ts. -/
structure AppStateData where
  selectedLlmModel : LLM_MODEL
  selectedKnowledgeBase : Option KnowledgeBaseSchema
  availableLlmModels : Option (List LLM_MODEL)
deriving DecidableEq, Repr

/-- The three `Action` forms (src/frontend_web/src/state/types.ts). The
type is closed, so the reducer's `default` branch is unreachable. -/
inductive Action where
  | setSelectedLlmModel (payload : LLM_MODEL)
  | setAvailableLlmModels (payload : List LLM_MODEL)
  | setSelectedKnowledgeBase (payload : Option KnowledgeBaseSchema)
deriving DecidableEq, Repr

/-- The state reducer (src/frontend_web/src/state/reducer.ts): each branch
returns the updated state, and the two selection branches additionally
write the JSON serialization of the payload to storage before returning. -/
def reducer (state : AppStateData) (storage : Storage) (action : Action) :
    AppStateData × Storage :=
  match action with
  | Action.setSelectedLlmModel payload =>
    ({ state with selectedLlmModel := payload },
     setStorageItem storage SELECTED_LLM_MODEL_KEY (jsonOfLlmModel payload))
  | Action.setAvailableLlmModels payload =>
    ({ state with availableLlmModels := some payload }, storage)
  | Action.setSelectedKnowledgeBase payload =>
    ({ state with selectedKnowledgeBase := payload },
     setStorageItem storage SELECTED_KNOWLEDGE_BASE_KEY (jsonOfSelectedKb payload))

/-! ## OAuth callback view (src/frontend_web/src/pages/OAuthCallback.tsx)

The view reads the query string via `URLSearchParams`. We model the query
as a list of key/value pairs (`get` returns the first value for a key).
The backend verification hook `useOauthCallback` lives in
src/frontend_web/src/api/oauth/hooks.ts, which is not present under the
source tree; per the spec it submits the callback payload (the full query
string) to a backend verification call when enabled, and reports
success/failure. It is modelled here by a boolean verify oracle over the
query. -/

abbrev QueryParams := List (String × String)

/-- `new URLSearchParams(search).get(k)`: first value bound to `k`. -/
def paramsGet (ps : QueryParams) (k : String) : Option String :=
  (ps.find? (fun kv => kv.1 == k)).map (fun kv => kv.2)

/-- `PATHS.SETTINGS.SOURCES` (src/frontend_web/src/constants/paths.ts). -/
def SOURCES_PATH : String := "/settings/sources"

/-- `buildErrorUrl` from the callback view:
`` `${PATHS.SETTINGS.SOURCES}?error=${e}` ``. -/
def buildErrorUrl (e : String) : String :=
  SOURCES_PATH ++ "?error=" ++ e

/-- Observable outcome of a callback visit: where the view navigated (if
anywhere) and the payload submitted to the backend verification call
(`none` when no call was made). -/
structure OAuthOutcome where
  navTarget : Option String
  verifySubmitted : Option QueryParams
deriving DecidableEq, Repr

/-- The `OAuthCallback` view: a truthy `error` query parameter is relayed
to the sources settings address and the verification query stays disabled
(`enabled = !!state && !providerError`); otherwise a truthy `state`
parameter enables the verification call on the full query, and the view
navigates on its success (no error) or failure (fixed code
"oauth_failed"). With neither parameter, nothing happens. -/
def runOAuthCallback (verify : QueryParams → Bool) (params : QueryParams) :
    OAuthOutcome :=
  let providerError := paramsGet params "error"
  if tsTruthyStr providerError then
    { navTarget := some (buildErrorUrl (providerError.getD ""))
      verifySubmitted := none }
  else
    let state := paramsGet params "state"
    if tsTruthyStr state then
      if verify params then
        { navTarget := some SOURCES_PATH, verifySubmitted := some params }
      else
        { navTarget := some (buildErrorUrl "oauth_failed")
          verifySubmitted := some params }
    else
      { navTarget := none, verifySubmitted := none }

/-! ## Concrete data for witnesses and counterexamples -/

/-- A phase-one record as returned by the drive upload endpoint. -/
def gFile : FileSchema :=
  { uuid := "u1", filename := "doc.txt", source := "google",
    added := "2024-01-01", owner_uuid := "owner-1" }

def c5FileA : FileSchema :=
  { uuid := "a", filename := "a.txt", source := "local",
    added := "2024-01-01", owner_uuid := "owner-1" }

def c5FileB : FileSchema :=
  { uuid := "b", filename := "b.txt", source := "local",
    added := "2024-01-01", owner_uuid := "owner-1" }

/-- The content-bearing record served for uuid "a". -/
def c5Fetched : FileSchema :=
  { c5FileA with encoded_content := some [("page1", "ZGF0YQ==")] }

/-- A fetch oracle that succeeds for uuid "a" and fails otherwise. -/
def c5Fetch : FetchFile :=
  fun u => if u == "a" then Except.ok c5Fetched else Except.error "network"

end TTMD

namespace TTMD

/-! ## Claim theorems -/

/-- C1: for every chat-send that fails, the cached message list for the
target chat's key after `onError` runs equals, entry for entry and in
order, the snapshot captured at mutation start, which is itself the list
cached immediately before the optimistic user message was appended. -/
theorem chat_send_failure_restores_snapshot
    (selectedModel : String) (chatId : Option String)
    (cache : QueryCache) (message : String) :
    onError (onMutate selectedModel chatId cache message).cache
        (onMutate selectedModel chatId cache message).context
        (chatKeys.messages chatId)
      = some ((cache (chatKeys.messages chatId)).getD [])
    ∧ (onMutate selectedModel chatId cache message).context.previousMessages
      = (cache (chatKeys.messages chatId)).getD [] := by
  refine ⟨?_, rfl⟩
  simp [onMutate, onError, setQueryData]

/-- C4: for every successful message submission, the assistant message
returned by the server is appended at the end of the cached list keyed by
the chat id carried in the response (the cache is written directly, not
refetched), and the view navigates to that chat id's address; in
particular when the response carries chat id `cid` the target is
`/chat/cid`. -/
theorem chat_send_success_appends_and_navigates
    (cache : QueryCache) (data : IChatMessage) :
    (onSuccess cache data).cache (chatKeys.messages data.chat_id)
      = some (((cache (chatKeys.messages data.chat_id)).getD []) ++ [data])
    ∧ (onSuccess cache data).navTarget = "/chat/" ++ tsInterp data.chat_id
    ∧ ∀ cid, data.chat_id = some cid →
        (onSuccess cache data).navTarget = "/chat/" ++ cid := by
  refine ⟨by simp [onSuccess, setQueryData], rfl, ?_⟩
  intro cid h
  simp [onSuccess, h, tsInterp]

/-- Witness for C4 at the spec's end-to-end example: the mocked assistant
reply carrying chat id "123" navigates the view to `/chat/123`. -/
theorem chat_send_success_appends_and_navigates_witness :
    (onSuccess (fun _ => none)
        { role := Role.assistant, content := "Agents Say Hello World!",
          chat_id := some "123", uuid := some "abc-123" }).navTarget
      = "/chat/" ++ "123" := by
  have h := chat_send_success_appends_and_navigates (fun _ => none)
    { role := Role.assistant, content := "Agents Say Hello World!",
      chat_id := some "123", uuid := some "abc-123" }
  exact h.2.2 "123" rfl

/-- C10: for a submission without an existing chat id, the optimistic user
message is written under the key of the undefined chat id, the assistant
reply under the key of the server-returned chat id; the keys differ, so a
fresh chat's cache holds only the reply and the optimistic message stays
under the undefined-id key. -/
theorem new_chat_optimistic_message_not_transferred
    (cache : QueryCache) (message selectedModel : String)
    (data : IChatMessage) (cid : String)
    (hcid : data.chat_id = some cid)
    (hfresh : cache (chatKeys.messages (some cid)) = none) :
    chatKeys.messages none ≠ chatKeys.messages (some cid)
    ∧ (onSuccess (onMutate selectedModel none cache message).cache data).cache
        (chatKeys.messages (some cid)) = some [data]
    ∧ (onSuccess (onMutate selectedModel none cache message).cache data).cache
        (chatKeys.messages none)
      = some (((cache (chatKeys.messages none)).getD [])
          ++ [{ role := Role.user, content := message,
                model := some selectedModel }]) := by
  have hfresh2 : cache [some "chats", some cid, some "messages"] = none := hfresh
  refine ⟨by simp [chatKeys.messages], ?_, ?_⟩
  · simp [onSuccess, onMutate, setQueryData, hcid, hfresh2, chatKeys.messages]
  · simp [onSuccess, onMutate, setQueryData, hcid, chatKeys.messages]

/-- Witness for C10: submitting "Hello" with no chat id, with the server
replying under chat id "123", on an initially empty cache. -/
theorem new_chat_optimistic_message_not_transferred_witness :
    chatKeys.messages none ≠ chatKeys.messages (some "123")
    ∧ (onSuccess (onMutate "ttmdocs-agents" none (fun _ => none) "Hello").cache
        { role := Role.assistant, content := "Agents Say Hello World!",
          chat_id := some "123" }).cache (chatKeys.messages (some "123"))
      = some [{ role := Role.assistant, content := "Agents Say Hello World!",
                chat_id := some "123" }]
    ∧ (onSuccess (onMutate "ttmdocs-agents" none (fun _ => none) "Hello").cache
        { role := Role.assistant, content := "Agents Say Hello World!",
          chat_id := some "123" }).cache (chatKeys.messages none)
      = some ((([] : List IChatMessage))
          ++ [{ role := Role.user, content := "Hello",
                model := some "ttmdocs-agents" }]) := by
  have h := new_chat_optimistic_message_not_transferred (fun _ => none)
    "Hello" "ttmdocs-agents"
    { role := Role.assistant, content := "Agents Say Hello World!",
      chat_id := some "123" } "123" rfl rfl
  exact h

/-- C3: the request goes to the agent-completions endpoint exactly when
the model identifier equals the synthetic agent model, otherwise to the
direct completions endpoint; the payload always carries the message text,
model identifier and chat id, carries `knowledge_base_id` when a (non
empty) knowledge-base id is given, falls back to the full
`knowledge_base` object only when no id is given, and carries `file_ids`
only when a non-empty file-id list is given. -/
theorem post_message_endpoint_and_payload (p : IPostMessageParams) :
    (postMessageUrl p = agentChatUrl ↔ p.model = AGENT_MODEL)
    ∧ (p.model ≠ AGENT_MODEL → postMessageUrl p = llmAPIUrl)
    ∧ (postMessagePayload p).message = p.message
    ∧ (postMessagePayload p).model = p.model
    ∧ (postMessagePayload p).chat_id = p.chatId
    ∧ (∀ s, s ≠ "" → p.knowledgeBaseId = some s →
        (postMessagePayload p).knowledge_base_id = some s
        ∧ (postMessagePayload p).knowledge_base = none)
    ∧ (p.knowledgeBaseId = none →
        (postMessagePayload p).knowledge_base_id = none
        ∧ (postMessagePayload p).knowledge_base = p.knowledgeBase)
    ∧ (∀ l, p.fileIds = some l → l ≠ [] →
        (postMessagePayload p).file_ids = some l)
    ∧ ((p.fileIds = none ∨ p.fileIds = some []) →
        (postMessagePayload p).file_ids = none) := by
  refine ⟨?_, ?_, rfl, rfl, rfl, ?_, ?_, ?_, ?_⟩
  · by_cases h : p.model = AGENT_MODEL
    · simp [postMessageUrl, h]
    · simp only [postMessageUrl, if_neg h]
      constructor
      · intro he
        exact absurd he (by decide)
      · intro hm
        exact absurd hm h
  · intro h
    simp [postMessageUrl, if_neg h]
  · intro s hs hid
    have ht : tsTruthyStr (some s) = true := by
      simp [tsTruthyStr, hs]
    exact ⟨by simp [postMessagePayload, hid, ht],
      by simp [postMessagePayload, hid, ht]⟩
  · intro hid
    have ht : tsTruthyStr p.knowledgeBaseId = false := by
      simp [tsTruthyStr, hid]
    exact ⟨by simp [postMessagePayload, ht, hid], by simp [postMessagePayload, ht]⟩
  · intro l hl hne
    have hpos : 0 < l.length := List.length_pos.mpr hne
    simp [postMessagePayload, hl, hpos]
  · rintro (h | h) <;> simp [postMessagePayload, h]

/-- Witness for C3 at the spec's example: message "Hello", synthetic agent
model, no chat id, no knowledge base, no file ids. -/
theorem post_message_endpoint_and_payload_witness :
    postMessageUrl { message := "Hello", model := "ttmdocs-agents" } = agentChatUrl
    ∧ (postMessagePayload { message := "Hello", model := "ttmdocs-agents" }).chat_id
      = none
    ∧ (postMessagePayload { message := "Hello", model := "ttmdocs-agents" }).knowledge_base_id
      = none
    ∧ (postMessagePayload { message := "Hello", model := "ttmdocs-agents" }).file_ids
      = none := by
  have h := post_message_endpoint_and_payload
    { message := "Hello", model := "ttmdocs-agents" }
  exact ⟨h.1.mpr rfl, h.2.2.2.2.1, (h.2.2.2.2.2.2.1 rfl).1,
    h.2.2.2.2.2.2.2.2 (Or.inl rfl)⟩

/-- C2 counterexample: a Google upload with no knowledge-base id, whose
phase one returned one record, still performs the per-file phase-two
fetch (one request is issued) and does not return the raw phase-one
response unchanged (the record comes back with `encoded_content` set). -/
theorem upload_no_kb_phase_two_cex :
    (uploadGoogleFile (fun _ => Except.error "network") none
        (Sum.inr [gFile])).phaseTwoFetched = ["u1"]
    ∧ (uploadGoogleFile (fun _ => Except.error "network") none
        (Sum.inr [gFile])).result ≠ [gFile] := by
  constructor
  · rfl
  · decide

/-- C2 amended: only the local upload (`uploadFiles`) skips phase two when
no knowledge-base id is supplied, returning the phase-one records
unchanged with no per-file fetch; the Google and Box uploads always
perform one phase-two fetch per uploaded record, whether or not a
knowledge-base id is supplied. -/
theorem upload_phase_two_policy :
    (∀ (fetch : FetchFile) (files : List FileSchema),
        (uploadFiles fetch none files).result = files
        ∧ (uploadFiles fetch none files).phaseTwoFetched = [])
    ∧ (∀ (fetch : FetchFile) (kb : Option String)
        (d : FileSchema ⊕ List FileSchema),
        (uploadGoogleFile fetch kb d).phaseTwoFetched
          = (normalizeUploadData d).map (fun f => f.uuid))
    ∧ (∀ (fetch : FetchFile) (kb : Option String)
        (d : FileSchema ⊕ List FileSchema),
        (uploadBoxFile fetch kb d).phaseTwoFetched
          = (normalizeUploadData d).map (fun f => f.uuid)) := by
  refine ⟨fun fetch files => ?_, fun _ _ _ => rfl, fun _ _ _ => rfl⟩
  constructor <;> simp [uploadFiles, tsTruthyStr]

/-- C5: the phase-two content loop maps N phase-one records to N result
records in upload order; a record whose fetch failed is kept with an
empty `encoded_content`, a record whose fetch succeeded carries the
fetched content (for the local variant, the fetched record as-is); the
loop never throws, it returns the full list for every fetch oracle. -/
theorem content_fetch_partial_failure
    (fetch : FetchFile) (files : List FileSchema) :
    (files.map (googleContentStep fetch)).length = files.length
    ∧ (files.map (localContentStep fetch)).length = files.length
    ∧ ∀ (i : Nat) (h : i < files.length),
        (∀ e, fetch files[i].uuid = Except.error e →
            (files.map (googleContentStep fetch))[i]?
              = some { files[i] with encoded_content := some [] }
            ∧ (files.map (localContentStep fetch))[i]?
              = some { files[i] with encoded_content := some [] })
        ∧ (∀ r, fetch files[i].uuid = Except.ok r →
            (files.map (googleContentStep fetch))[i]?
              = some { r with
                  encoded_content := some (r.encoded_content.getD []) }
            ∧ (files.map (localContentStep fetch))[i]? = some r) := by
  refine ⟨List.length_map _ _, List.length_map _ _, ?_⟩
  intro i h
  constructor
  · intro e hfe
    constructor <;>
      simp [List.getElem?_map, List.getElem?_eq_getElem h,
        googleContentStep, localContentStep, hfe]
  · intro r hfr
    constructor <;>
      simp [List.getElem?_map, List.getElem?_eq_getElem h,
        googleContentStep, localContentStep, hfr]

/-- Witness for C5: two uploaded records, the fetch for "a" succeeds and
the fetch for "b" fails; both are present, in order, the failed one with
empty content and the other with its fetched content. -/
theorem content_fetch_partial_failure_witness :
    ([c5FileA, c5FileB].map (googleContentStep c5Fetch)).length = 2
    ∧ ([c5FileA, c5FileB].map (googleContentStep c5Fetch))[1]?
      = some { c5FileB with encoded_content := some [] }
    ∧ ([c5FileA, c5FileB].map (googleContentStep c5Fetch))[0]?
      = some { c5Fetched with
          encoded_content := some (c5Fetched.encoded_content.getD []) } := by
  have h := content_fetch_partial_failure c5Fetch [c5FileA, c5FileB]
  refine ⟨h.1, ?_, ?_⟩
  · exact (((h.2.2) 1 (by decide)).1 "network" rfl).1
  · exact (((h.2.2) 0 (by decide)).2 c5Fetched rfl).1

/-- C6: a visit to the OAuth callback with a (truthy) `error` query
parameter navigates to the sources settings address carrying the same
error value and submits nothing to the backend; with no `error` parameter
and a (truthy) `state` parameter, the full query is submitted to the
verification call and the view navigates to the sources settings address,
plain on success and with the fixed code `oauth_failed` on failure. -/
theorem oauth_callback_navigation
    (verify : QueryParams → Bool) (params : QueryParams) :
    (∀ e, e ≠ "" → paramsGet params "error" = some e →
        (runOAuthCallback verify params).navTarget
          = some (SOURCES_PATH ++ "?error=" ++ e)
        ∧ (runOAuthCallback verify params).verifySubmitted = none)
    ∧ (∀ s, paramsGet params "error" = none → s ≠ "" →
        paramsGet params "state" = some s →
        (runOAuthCallback verify params).verifySubmitted = some params
        ∧ (verify params = true →
            (runOAuthCallback verify params).navTarget = some SOURCES_PATH)
        ∧ (verify params = false →
            (runOAuthCallback verify params).navTarget
              = some (SOURCES_PATH ++ "?error=oauth_failed"))) := by
  constructor
  · intro e he hget
    have ht : tsTruthyStr (some e) = true := by
      simp [tsTruthyStr, he]
    constructor <;> simp [runOAuthCallback, hget, ht, buildErrorUrl]
  · intro s herr hs hstate
    have hf : tsTruthyStr (paramsGet params "error") = false := by
      rw [herr]
      simp [tsTruthyStr]
    have hts : tsTruthyStr (some s) = true := by
      simp [tsTruthyStr, hs]
    have heq : SOURCES_PATH ++ "?error=" ++ "oauth_failed"
        = SOURCES_PATH ++ "?error=oauth_failed" := rfl
    cases hv : verify params <;>
      simp [runOAuthCallback, hf, hstate, hts, hv, buildErrorUrl, heq]

/-- Witness for C6: query `?state=abc` with a succeeding verification is
submitted to the backend and navigates to the sources settings address;
query `?error=access_denied` relays the error with no backend call. -/
theorem oauth_callback_navigation_witness :
    ((runOAuthCallback (fun _ => true) [("state", "abc")]).verifySubmitted
        = some [("state", "abc")]
      ∧ (runOAuthCallback (fun _ => true) [("state", "abc")]).navTarget
        = some SOURCES_PATH)
    ∧ ((runOAuthCallback (fun _ => true) [("error", "access_denied")]).navTarget
        = some (SOURCES_PATH ++ "?error=" ++ "access_denied")
      ∧ (runOAuthCallback (fun _ => true)
          [("error", "access_denied")]).verifySubmitted = none) := by
  have h1 := oauth_callback_navigation (fun _ => true) [("state", "abc")]
  have h2 := oauth_callback_navigation (fun _ => true) [("error", "access_denied")]
  have hb := h1.2 "abc" rfl (by decide) rfl
  exact ⟨⟨hb.1, hb.2.1 rfl⟩, h2.1 "access_denied" (by decide) rfl⟩

/-- C7: after any sequence of catalog refetches ending with a server
response `resp`, the displayed catalog is exactly the synthetic agent
entry followed by the active, non-deprecated server models in server
order; the agent entry is at index 0, and — the server never returning
the synthetic entry — it occurs exactly once no matter how many fetches
happened before. -/
theorem llm_catalog_agent_entry
    (prior : List (List LLM_MODEL)) (resp : List LLM_MODEL) :
    displayedCatalog (catalogCacheAfter (prior ++ [resp]))
      = some (AGENT_MODEL_LLM :: getLlmCatalog resp)
    ∧ (selectLlmCatalog (getLlmCatalog resp)).head? = some AGENT_MODEL_LLM
    ∧ (AGENT_MODEL_LLM ∉ resp →
        (selectLlmCatalog (getLlmCatalog resp)).count AGENT_MODEL_LLM = 1) := by
  refine ⟨?_, rfl, ?_⟩
  · simp [catalogCacheAfter, displayedCatalog, selectLlmCatalog]
  · intro hnm
    have hno : AGENT_MODEL_LLM ∉ getLlmCatalog resp := by
      intro hmem
      exact hnm (List.mem_filter.mp hmem).1
    simp [selectLlmCatalog, List.count_cons_self, List.count_eq_zero.mpr hno]

/-- Witness for C7: one prior fetch and a final empty server response
still display the agent entry exactly once, at index 0. -/
theorem llm_catalog_agent_entry_witness :
    displayedCatalog (catalogCacheAfter [[], []]) = some [AGENT_MODEL_LLM]
    ∧ (selectLlmCatalog (getLlmCatalog [])).count AGENT_MODEL_LLM = 1 := by
  have h := llm_catalog_agent_entry [[]] []
  exact ⟨h.1, h.2.2 (by simp)⟩

/-- C8: the derived connected-sources list has a `google` entry (with
`isConnected = true`) exactly when some identity's provider type,
lowercased, contains the substring "google", and a `box` entry exactly
when one contains "box"; the identity list `[provider_type =
"google_oauth"]` yields exactly the single google entry. -/
theorem connected_sources_derivation (ids : List IIdentity) :
    ((useConnectedSources (some ids)).any
        (fun s => s.type == SourceType.google && s.isConnected))
      = ids.any (fun i => lowerIncludes i.provider_type "google")
    ∧ ((useConnectedSources (some ids)).any
        (fun s => s.type == SourceType.box && s.isConnected))
      = ids.any (fun i => lowerIncludes i.provider_type "box")
    ∧ useConnectedSources (some [{ provider_type := some "google_oauth" }])
      = [{ id := "google", name := "Google Drive", type := SourceType.google,
           isConnected := true }] := by
  refine ⟨?_, ?_, by decide⟩ <;>
    cases hg : ids.any (fun i => lowerIncludes i.provider_type "google") <;>
    cases hb : ids.any (fun i => lowerIncludes i.provider_type "box") <;>
    simp [useConnectedSources, hg, hb]

/-- C9: the reducer mirrors exactly the two selection fields to storage:
selecting a model writes its JSON serialization under the
SELECTED_LLM_MODEL key (leaving the knowledge-base key untouched),
selecting a knowledge base writes its serialization under the
SELECTED_KNOWLEDGE_BASE key (leaving the model key untouched), and
setting the available catalog performs no storage write at all. -/
theorem reducer_persists_selections
    (state : AppStateData) (storage : Storage) :
    (∀ m : LLM_MODEL,
        (reducer state storage (Action.setSelectedLlmModel m)).2
          = setStorageItem storage SELECTED_LLM_MODEL_KEY (jsonOfLlmModel m)
        ∧ (reducer state storage (Action.setSelectedLlmModel m)).2
            SELECTED_LLM_MODEL_KEY = some (jsonOfLlmModel m)
        ∧ (reducer state storage (Action.setSelectedLlmModel m)).2
            SELECTED_KNOWLEDGE_BASE_KEY = storage SELECTED_KNOWLEDGE_BASE_KEY)
    ∧ (∀ ms : List LLM_MODEL,
        (reducer state storage (Action.setAvailableLlmModels ms)).2 = storage)
    ∧ (∀ kb : Option KnowledgeBaseSchema,
        (reducer state storage (Action.setSelectedKnowledgeBase kb)).2
          = setStorageItem storage SELECTED_KNOWLEDGE_BASE_KEY
              (jsonOfSelectedKb kb)
        ∧ (reducer state storage (Action.setSelectedKnowledgeBase kb)).2
            SELECTED_KNOWLEDGE_BASE_KEY = some (jsonOfSelectedKb kb)
        ∧ (reducer state storage (Action.setSelectedKnowledgeBase kb)).2
            SELECTED_LLM_MODEL_KEY = storage SELECTED_LLM_MODEL_KEY) := by
  refine ⟨fun m => ⟨rfl, ?_, ?_⟩, fun ms => rfl, fun kb => ⟨rfl, ?_, ?_⟩⟩ <;>
    simp [reducer, setStorageItem, SELECTED_LLM_MODEL_KEY,
      SELECTED_KNOWLEDGE_BASE_KEY]

end TTMD
